import Mathlib

/-!
Verification development for the tinydtls core API (src/dtls.h).

The header `dtls.h` fixes the visible data model: the engine state
enumeration `dtls_state_t`, the per-peer record `dtls_peer_t`, the
context record `dtls_context_t`, the record-layer header
`dtls_record_header_t`, the wire constants, and the contracts of the
public entry points.  Types `uint8`, `uint16`, `uint24`, `uint48` of the
original are big-endian byte arrays of widths 1, 2, 3 and 6; here a field
of width w is a natural number below 2^(8*w) and its wire form is the
big-endian byte list of that width.

The implementation translation unit (dtls.c) is not part of the sources
available here; operations whose behaviour it decides are modelled from
the specification document, each marked `Modelled from the spec:` in its
doc comment.
-/

namespace TinyDtls

/-- A transport address together with the local interface index
(session_t of the original); equality is bytewise. -/
structure session_t where
  addr : List Nat
  ifindex : Nat
deriving DecidableEq, Repr

/-- Engine states, exactly the enumerators of dtls_state_t in dtls.h
(lines 60-70), in declaration order. -/
inductive dtls_state_t where
  | DTLS_STATE_INIT
  | DTLS_STATE_SERVERHELLO
  | DTLS_STATE_KEYEXCHANGE
  | DTLS_STATE_WAIT_FINISHED
  | DTLS_STATE_FINISHED
  | DTLS_STATE_CLIENTHELLO
  | DTLS_STATE_WAIT_SERVERHELLODONE
  | DTLS_STATE_WAIT_SERVERFINISHED
  | DTLS_STATE_CONNECTED
  | DTLS_STATE_CLOSING
  | DTLS_STATE_CLOSED
deriving DecidableEq, Repr

open dtls_state_t

/-- Security parameters of one slot (dtls_security_parameters_t is
declared in crypto.h, outside the available sources; the spec lists the
fields: cipher suite, compression, master secret, both randoms, key
block).  Byte strings are lists of byte values. -/
structure dtls_security_parameters_t where
  cipher : Nat
  compression : Nat
  master_secret : List Nat
  client_random : List Nat
  server_random : List Nat
  key_block : List Nat
deriving DecidableEq, Repr

/-- Handshake protocol status of a peer (dtls_hs_state_t, dtls.h lines
72-80): the handshake message sequence counter and the running
transcript hash, the latter modelled as the list of hashed bytes. -/
structure dtls_hs_state_t where
  mseq : Nat
  hs_hash : List Nat
deriving DecidableEq, Repr

/-- Per-peer state (dtls_peer_t, dtls.h lines 85-103): session identity,
engine state, sending epoch (16-bit), last-record sequence number
(48-bit), handshake status, two security-parameter slots selected by
config. -/
structure dtls_peer_t where
  session : session_t
  state : dtls_state_t
  epoch : Nat
  rseq : Nat
  hs_state : dtls_hs_state_t
  security_params : dtls_security_parameters_t × dtls_security_parameters_t
  config : Nat
deriving DecidableEq, Repr

/-- Length of the secret used for generating Hello Verify cookies
(DTLS_COOKIE_SECRET_LENGTH, dtls.h line 122). -/
def DTLS_COOKIE_SECRET_LENGTH : Nat := 12

/-- Length of the cookie (DTLS_COOKIE_LENGTH, dtls.h line 282). -/
def DTLS_COOKIE_LENGTH : Nat := 16

/-- Global information of the DTLS engine (dtls_context_t, dtls.h lines
206-226): cookie secret and its age, the peer table, the send queue,
the opaque application-data pointer, the callback-handler pointer, and
the two scratch buffers.  The two pointers `app` and `h` are opaque
values of the caller; they are modelled by their numeric pointer
value. -/
structure dtls_context_t where
  cookie_secret : List Nat
  cookie_secret_age : Nat
  peers : List dtls_peer_t
  sendqueue : List (session_t × List Nat)
  app : Nat
  h : Nat
  readbuf : List Nat
  sendbuf : List Nat
deriving DecidableEq, Repr

/-- The macro dtls_set_app_data (dtls.h line 242):
`((CTX)->app = (DATA))` assigns the app field. -/
def dtls_set_app_data (ctx : dtls_context_t) (data : Nat) : dtls_context_t :=
  { ctx with app := data }

/-- The macro dtls_get_app_data (dtls.h line 243): `((CTX)->app)` reads
the app field. -/
def dtls_get_app_data (ctx : dtls_context_t) : Nat :=
  ctx.app

/-- The inline function dtls_set_handler (dtls.h lines 246-248):
`ctx->h = h;` assigns the handler field. -/
def dtls_set_handler (ctx : dtls_context_t) (h : Nat) : dtls_context_t :=
  { ctx with h := h }

/-! Wire codec for the record header.  The original types uint16 and
uint48 are big-endian byte arrays of 2 and 6 bytes. -/

/-- Big-endian wire form of a 16-bit field (the uint16 byte array of the
original). -/
def encode16 (n : Nat) : List Nat :=
  [n / 2 ^ 8 % 2 ^ 8, n % 2 ^ 8]

/-- Big-endian wire form of a 48-bit field (the uint48 byte array of the
original). -/
def encode48 (n : Nat) : List Nat :=
  [n / 2 ^ 40 % 2 ^ 8, n / 2 ^ 32 % 2 ^ 8, n / 2 ^ 24 % 2 ^ 8,
   n / 2 ^ 16 % 2 ^ 8, n / 2 ^ 8 % 2 ^ 8, n % 2 ^ 8]

/-- Content type of the change-cipher-spec protocol
(DTLS_CT_CHANGE_CIPHER_SPEC, dtls.h line 284). -/
def DTLS_CT_CHANGE_CIPHER_SPEC : Nat := 20

/-- Content type of the alert protocol (DTLS_CT_ALERT, dtls.h
line 285). -/
def DTLS_CT_ALERT : Nat := 21

/-- Content type of the handshake protocol (DTLS_CT_HANDSHAKE, dtls.h
line 286). -/
def DTLS_CT_HANDSHAKE : Nat := 22

/-- Content type of application data (DTLS_CT_APPLICATION_DATA, dtls.h
line 287). -/
def DTLS_CT_APPLICATION_DATA : Nat := 23

/-- Generic header of the DTLS record layer (dtls_record_header_t,
dtls.h lines 290-297): content type (uint8), protocol version (uint16),
epoch (uint16), sequence number (uint48), fragment length (uint16). -/
structure dtls_record_header_t where
  content_type : Nat
  version : Nat
  epoch : Nat
  sequence_number : Nat
  length : Nat
deriving DecidableEq, Repr

/-- Wire encoding of a record header: the packed byte layout of
dtls_record_header_t, field by field in declaration order. -/
def encodeRecordHeader (h : dtls_record_header_t) : List Nat :=
  [h.content_type % 2 ^ 8] ++ encode16 h.version ++ encode16 h.epoch ++
    encode48 h.sequence_number ++ encode16 h.length

/-- A content type the record layer knows: one of the four DTLS_CT
constants of dtls.h. -/
def valid_content_type (ct : Nat) : Bool :=
  ct == DTLS_CT_CHANGE_CIPHER_SPEC || ct == DTLS_CT_ALERT ||
    ct == DTLS_CT_HANDSHAKE || ct == DTLS_CT_APPLICATION_DATA

/-- Outcome of looking at one record of a datagram: the record is
dropped, or it is handed to the named protocol. -/
inductive RecordResult where
  | dropped
  | demuxed (ct : Nat)
deriving DecidableEq, Repr

/-- Modelled from the spec: the content-type demultiplexer of the record
receive path inside dtls_handle_message (the body lives in dtls.c, which
is not among the sources).  A record whose content type is not one of the
four known values is dropped without aborting the session: the peer
state is returned unchanged.  A known content type is handed on. -/
def record_dispatch (p : dtls_peer_t) (h : dtls_record_header_t) :
    dtls_peer_t × RecordResult :=
  if valid_content_type h.content_type then
    (p, RecordResult.demuxed h.content_type)
  else
    (p, RecordResult.dropped)

/-! Anti-replay window.  The spec (section 4.4) describes it: a 64-bit
bitmap over the last 64 sequence numbers, kept per peer for the current
read epoch.  The header's dtls_peer_t does not carry the window field
itself (it lives in the missing translation unit), so the window is
modelled from the spec as its own structure. -/

/-- Modelled from the spec: the anti-replay window of a peer (the field
lives in dtls.c, not among the sources).  `high` is the high-water mark,
the largest sequence number accepted so far; bit i of `bitmap`, for
0 <= i <= 63, records whether sequence number high - i has been seen. -/
structure ReplayWindow where
  high : Nat
  bitmap : Nat
deriving DecidableEq, Repr

/-- A well-formed window: the bitmap fits in 64 bits and the high-water
mark itself is marked seen (it was the last accepted record). -/
def ReplayWindow.wf (w : ReplayWindow) : Prop :=
  w.bitmap < 2 ^ 64 ∧ w.bitmap.testBit 0 = true

instance (w : ReplayWindow) : Decidable w.wf := by
  unfold ReplayWindow.wf; infer_instance

/-- Modelled from the spec: the replay check of the record receive path
(dtls.c is not among the sources).  A sequence number strictly above the
high-water mark is new; one more than 63 below it is dropped; one inside
the window is admitted exactly when its bit is still clear. -/
def replay_check (w : ReplayWindow) (seq : Nat) : Bool :=
  if w.high < seq then true
  else if 63 < w.high - seq then false
  else ! w.bitmap.testBit (w.high - seq)

/-- Modelled from the spec: marking an accepted sequence number.  An
accepted sequence above the high-water mark shifts the window and marks
its own (new bit 0) position; an accepted sequence inside the window
sets its bit. -/
def replay_update (w : ReplayWindow) (seq : Nat) : ReplayWindow :=
  if w.high < seq then
    { high := seq, bitmap := (w.bitmap <<< (seq - w.high) ||| 1) % 2 ^ 64 }
  else
    { w with bitmap := w.bitmap ||| 1 <<< (w.high - seq) }

/-- One inbound record at the replay window: accepted records update the
window, rejected ones leave it unchanged. -/
def replay_step (w : ReplayWindow) (seq : Nat) : ReplayWindow :=
  if replay_check w seq then replay_update w seq else w

/-- A run of inbound records through the replay window. -/
def replay_run (w : ReplayWindow) (seqs : List Nat) : ReplayWindow :=
  seqs.foldl replay_step w

/-- Modelled from the spec: the record receive path tests inbound
records against the replay window only for a peer whose engine is in
the connected state; the acceptance decision for such a peer is the
window check. -/
def dtls_record_recv_check (p : dtls_peer_t) (w : ReplayWindow)
    (seq : Nat) : Bool :=
  decide (p.state = DTLS_STATE_CONNECTED) && replay_check w seq

/-! Outbound record numbering.  The header keeps, per peer, the 16-bit
epoch and the 48-bit record sequence number (dtls_peer_t lines 95-96);
the send path that stamps and advances them lives in dtls.c. -/

/-- An outbound action of a peer: send one protected record, or apply a
cipher-state change (which increments the epoch). -/
inductive OutEvent where
  | send
  | cipher
deriving DecidableEq, Repr

/-- Modelled from the spec: one step of the outbound record path (the
body lives in dtls.c, not among the sources).  A send stamps the record
with the current (epoch, rseq) and increments rseq; when the increment
reaches 2^48 the peer is closed with an internal error and nothing more
is emitted.  A cipher change increments the 16-bit epoch and resets rseq
to zero; the spec leaves epoch exhaustion unspecified, and the model
closes the peer when the counter would wrap, parallel to the
sequence-overflow rule.  A closed peer emits nothing. -/
def out_step (p : dtls_peer_t) (e : OutEvent) :
    dtls_peer_t × Option (Nat × Nat) :=
  if p.state = DTLS_STATE_CLOSED then (p, none)
  else
    match e with
    | OutEvent.send =>
        let emitted := (p.epoch, p.rseq)
        if p.rseq + 1 = 2 ^ 48 then
          ({ p with state := DTLS_STATE_CLOSED, rseq := p.rseq + 1 },
           some emitted)
        else
          ({ p with rseq := p.rseq + 1 }, some emitted)
    | OutEvent.cipher =>
        if p.epoch + 1 = 2 ^ 16 then
          ({ p with state := DTLS_STATE_CLOSED }, none)
        else
          ({ p with epoch := p.epoch + 1, rseq := 0 }, none)

/-- A run of outbound actions, collecting the (epoch, sequence) pairs
stamped on the emitted records, in emission order. -/
def out_run (p : dtls_peer_t) (es : List OutEvent) :
    dtls_peer_t × List (Nat × Nat) :=
  match es with
  | [] => (p, [])
  | e :: rest =>
      ((out_run (out_step p e).1 rest).1,
       (out_step p e).2.toList ++ (out_run (out_step p e).1 rest).2)

/-- Strict lexicographic order on (epoch, sequence) pairs. -/
def pairLexLt (a b : Nat × Nat) : Prop :=
  a.1 < b.1 ∨ (a.1 = b.1 ∧ a.2 < b.2)

/-! Handshake engine.  The engine states are the enumerators of
dtls_state_t; the transitions, the Finished bookkeeping and the event
callbacks are modelled from the spec (section 4.3 and section 6), the
bodies being in dtls.c which is not among the sources. -/

/-- The internal event code for a completed handshake.  The header doc
(dtls.h lines 176-177, 575-576) fixes the split: codes below 256 are
alerts, codes of 256 or more are internal session changes, and the only
defined internal event is the connected notification; it is modelled as
the least internal code. -/
def DTLS_EVENT_CONNECTED : Nat := 256

/-- The decrypt-error alert description (wire value 51), raised on a
failed Finished verification. -/
def DTLS_ALERT_DECRYPT_ERROR : Nat := 51

/-- The close-notify alert description (wire value 0). -/
def DTLS_ALERT_CLOSE_NOTIFY : Nat := 0

/-- One invocation of the event callback of dtls_handler_t (dtls.h lines
168-181): the alert level (0 for internal events) and the event code. -/
structure EventCall where
  level : Nat
  code : Nat
deriving DecidableEq, Repr

/-- Inputs the handshake engine of one peer reacts to. -/
inductive HsEvent where
  | recvHelloVerify
  | recvServerHello
  | recvServerHelloDone
  | recvClientHello
  | recvClientKeyExchange
  | recvChangeCipher
  | recvFinished (ok : Bool)
  | closeCall
  | recvWarningAlert (code : Nat)
  | recvFatalAlert (code : Nat)
  | recvCloseNotify
deriving DecidableEq, Repr

/-- Engine view of one peer: its dtls_state_t, whether this side has
already sent its Finished message, and whether the Finished message
received from the peer has been verified successfully. -/
structure HsPeer where
  state : dtls_state_t
  finished_sent : Bool
  finished_verified : Bool
deriving DecidableEq, Repr

/-- Modelled from the spec: one transition of the handshake engine (the
engine body lives in dtls.c, not among the sources); returns the new
peer view and the event-callback invocations the transition makes.
Client side: a hello-verify makes the client repeat its hello; a
server-hello advances towards the server-hello-done; the server-hello-
done triggers the client flight ending in the client Finished; the
server Finished, once verified, completes the handshake.  Server side:
a cookie-verified client-hello starts the server flight; key exchange
and cipher change lead to the client Finished, whose successful
verification makes the server send its own Finished and complete.  A
Finished that fails verification raises a fatal decrypt-error alert and
closes the peer.  Alerts receive their wire-byte code; inputs a state
does not expect leave the peer unchanged (retransmission handling is a
collaborator concern). -/
def hs_step (p : HsPeer) (e : HsEvent) : HsPeer × List EventCall :=
  match e with
  | HsEvent.recvWarningAlert c => (p, [⟨1, c % 2 ^ 8⟩])
  | HsEvent.recvHelloVerify => (p, [])
  | HsEvent.recvServerHello =>
      if p.state = DTLS_STATE_CLIENTHELLO then
        ({ p with state := DTLS_STATE_WAIT_SERVERHELLODONE }, [])
      else (p, [])
  | HsEvent.recvServerHelloDone =>
      if p.state = DTLS_STATE_WAIT_SERVERHELLODONE then
        ({ p with state := DTLS_STATE_WAIT_SERVERFINISHED,
                  finished_sent := true }, [])
      else (p, [])
  | HsEvent.recvClientHello =>
      if p.state = DTLS_STATE_INIT then
        ({ p with state := DTLS_STATE_SERVERHELLO }, [])
      else (p, [])
  | HsEvent.recvClientKeyExchange =>
      if p.state = DTLS_STATE_SERVERHELLO then
        ({ p with state := DTLS_STATE_KEYEXCHANGE }, [])
      else (p, [])
  | HsEvent.recvChangeCipher =>
      if p.state = DTLS_STATE_KEYEXCHANGE then
        ({ p with state := DTLS_STATE_WAIT_FINISHED }, [])
      else (p, [])
  | HsEvent.recvFinished ok =>
      if p.state = DTLS_STATE_WAIT_SERVERFINISHED then
        if ok then
          ({ p with state := DTLS_STATE_CONNECTED,
                    finished_verified := true },
           [⟨0, DTLS_EVENT_CONNECTED⟩])
        else
          ({ p with state := DTLS_STATE_CLOSED },
           [⟨2, DTLS_ALERT_DECRYPT_ERROR⟩])
      else if p.state = DTLS_STATE_WAIT_FINISHED then
        if ok then
          ({ p with state := DTLS_STATE_CONNECTED,
                    finished_verified := true, finished_sent := true },
           [⟨0, DTLS_EVENT_CONNECTED⟩])
        else
          ({ p with state := DTLS_STATE_CLOSED },
           [⟨2, DTLS_ALERT_DECRYPT_ERROR⟩])
      else (p, [])
  | HsEvent.closeCall =>
      if p.state = DTLS_STATE_CONNECTED then
        ({ p with state := DTLS_STATE_CLOSING }, [])
      else (p, [])
  | HsEvent.recvFatalAlert c =>
      ({ p with state := DTLS_STATE_CLOSED }, [⟨2, c % 2 ^ 8⟩])
  | HsEvent.recvCloseNotify =>
      if p.state = DTLS_STATE_CLOSING then
        ({ p with state := DTLS_STATE_CLOSED },
         [⟨1, DTLS_ALERT_CLOSE_NOTIFY⟩])
      else (p, [])

/-- A run of the handshake engine over a list of inputs, collecting the
event-callback invocations in order. -/
def hs_run (p : HsPeer) (es : List HsEvent) : HsPeer × List EventCall :=
  match es with
  | [] => (p, [])
  | e :: rest =>
      ((hs_run (hs_step p e).1 rest).1,
       (hs_step p e).2 ++ (hs_run (hs_step p e).1 rest).2)

/-- The peer view right after dtls_connect sent the first client hello:
the client-hello-sent state, nothing Finished yet. -/
def client_start : HsPeer :=
  ⟨DTLS_STATE_CLIENTHELLO, false, false⟩

/-- The peer view of a freshly admitted server-side peer before it reads
the cookie-verified client hello. -/
def server_start : HsPeer :=
  ⟨DTLS_STATE_INIT, false, false⟩

/-! Cookie machinery and the dispatch entry point.  DTLS_COOKIE_LENGTH
and DTLS_COOKIE_SECRET_LENGTH come from the header; the cookie
computation, the client-hello admission and the entry points live in
dtls.c, which is not among the sources, and are modelled from the
spec. -/

/-- Modelled from the spec: a stand-in for the keyed hash of the crypto
kit (hmac.h is not among the sources).  It keeps the interface the spec
fixes: a deterministic function of the key and the message producing
exactly 32 bytes.  The mixing itself stands in for HMAC-SHA256, which
the spec treats as a black box. -/
def hmacModel (key msg : List Nat) : List Nat :=
  (List.range 32).map (fun i =>
    (key.foldl (fun a b => (a * 31 + b + 7) % 2 ^ 8) (i * 131 % 2 ^ 8) +
      msg.foldl (fun a b => (a * 33 + b + 11) % 2 ^ 8) i) % 2 ^ 8)

/-- Wire serialization of a session identity: the used prefix of the
transport address followed by the local interface index (equality of
identities is bytewise over this form). -/
def encodeSession (s : session_t) : List Nat :=
  s.addr ++ [s.ifindex]

/-- A well-formed context: the cookie secret has the length the header
fixes for the cookie_secret array. -/
def dtls_context_t.wf (ctx : dtls_context_t) : Prop :=
  ctx.cookie_secret.length = DTLS_COOKIE_SECRET_LENGTH

instance (ctx : dtls_context_t) : Decidable ctx.wf := by
  unfold dtls_context_t.wf; infer_instance

/-- Modelled from the spec: cookie creation (the body lives in dtls.c,
not among the sources).  The cookie for identity I is the keyed hash of
I followed by the client random, under the context's cookie secret,
truncated to DTLS_COOKIE_LENGTH bytes. -/
def dtls_create_cookie (ctx : dtls_context_t) (s : session_t)
    (client_random : List Nat) : List Nat :=
  (hmacModel ctx.cookie_secret (encodeSession s ++ client_random)).take
    DTLS_COOKIE_LENGTH

/-- The client random of a client-hello body: the 32 bytes (4 bytes of
timestamp plus 28 random bytes, dtls_client_hello_t lines 326-327)
following the 2-byte client version. -/
def client_hello_random (body : List Nat) : List Nat :=
  (body.drop 2).take 32

/-- Modelled from the header contract of dtls_get_cookie (dtls.h lines
353-363; the body lives in dtls.c): locate the cookie inside a
client-hello body, bounds-checking every length field against the
containing buffer; none on a malformed body, otherwise the cookie bytes
(possibly empty).  The body starts after the handshake header: version
(2), random (32), session-id length (1), session id, cookie length (1),
cookie. -/
def dtls_get_cookie (body : List Nat) : Option (List Nat) :=
  match body.drop 34 with
  | [] => none
  | sid_len :: rest1 =>
      if rest1.length < sid_len + 1 then none
      else
        match rest1.drop sid_len with
        | [] => none
        | clen :: rest3 =>
            if rest3.length < clen then none
            else some (rest3.take clen)

/-- Handshake message type of a client hello (DTLS_HT_CLIENT_HELLO,
dtls.h line 302). -/
def DTLS_HT_CLIENT_HELLO : Nat := 1

/-- Outcome of cookie admission control for a client hello from an
unknown peer. -/
inductive VerifyResult where
  | drop
  | sendHelloVerify (cookie : List Nat)
  | cookieValid
deriving DecidableEq, Repr

/-- Modelled from the spec: admission control on a client-hello body
(the body of the check lives in dtls.c).  A malformed hello is dropped;
a hello whose cookie is empty or differs from the cookie computed for
this identity elicits a hello-verify-request carrying the freshly
computed cookie; a matching cookie admits the peer. -/
def dtls_verify_peer (ctx : dtls_context_t) (s : session_t)
    (body : List Nat) : VerifyResult :=
  match dtls_get_cookie body with
  | none => VerifyResult.drop
  | some c =>
      let expected := dtls_create_cookie ctx s (client_hello_random body)
      if c = [] ∨ c ≠ expected then VerifyResult.sendHelloVerify expected
      else VerifyResult.cookieValid

/-- Messages the dispatch path hands to the transmit callback. -/
inductive SentMsg where
  | helloVerifyRequest (cookie : List Nat)
  | serverFlight
  | clientHello
  | closeNotify
deriving DecidableEq, Repr

/-- Look a session identity up in the peer table of a context. -/
def peer_lookup (ctx : dtls_context_t) (s : session_t) :
    Option dtls_peer_t :=
  ctx.peers.find? (fun p => decide (p.session = s))

/-- Empty security-parameter slot. -/
def empty_security_params : dtls_security_parameters_t :=
  ⟨0, 0, [], [], [], []⟩

/-- Modelled from the spec: the peer state allocated for a
cookie-verified client hello: the identity, the initial engine state,
epoch 0, sequence 0, fresh handshake status, the client random recorded
in the pending slot. -/
def server_peer (s : session_t) (client_random : List Nat) : dtls_peer_t :=
  ⟨s, DTLS_STATE_SERVERHELLO, 0, 0, ⟨0, []⟩,
   (empty_security_params,
    { empty_security_params with client_random := client_random }), 0⟩

/-- Modelled from the spec: the peer state created by dtls_connect when
it sends the first client hello. -/
def client_peer (s : session_t) : dtls_peer_t :=
  ⟨s, DTLS_STATE_CLIENTHELLO, 0, 0, ⟨0, []⟩,
   (empty_security_params, empty_security_params), 0⟩

/-- Modelled from the spec and the header contract (dtls.h lines
365-375): the dispatch entry point dtls_handle_message (its body lives
in dtls.c).  The caller's transmit callback outcome is an explicit
input.  A datagram from a known peer goes through the record layer,
whose drops are silent, so it reports success.  From an unknown peer,
anything but a handshake record carrying a client hello is ignored; a
client hello goes through admission: a hello-verify-request or the
server flight is handed to the transmit callback, whose failure
propagates as a negative return; only a cookie-verified hello allocates
a peer.  Returns the new context, the return value, and the messages
handed to the transmit callback. -/
def dtls_handle_message (ctx : dtls_context_t) (sess : session_t)
    (msg : List Nat) (transmit_result : Int) :
    dtls_context_t × Int × List SentMsg :=
  match peer_lookup ctx sess with
  | some _ => (ctx, 0, [])
  | none =>
      if msg.length < 13 then (ctx, 0, [])
      else if msg.head? ≠ some DTLS_CT_HANDSHAKE then (ctx, 0, [])
      else
        let body := (msg.drop 13)
        if body.length < 12 then (ctx, 0, [])
        else if body.head? ≠ some DTLS_HT_CLIENT_HELLO then (ctx, 0, [])
        else
          let hello := body.drop 12
          match dtls_verify_peer ctx sess hello with
          | VerifyResult.drop => (ctx, 0, [])
          | VerifyResult.sendHelloVerify cookie =>
              (ctx, if transmit_result < 0 then -1 else 0,
               [SentMsg.helloVerifyRequest cookie])
          | VerifyResult.cookieValid =>
              ({ ctx with
                 peers := server_peer sess (client_hello_random hello) ::
                   ctx.peers },
               if transmit_result < 0 then -1 else 0,
               [SentMsg.serverFlight])

/-- Modelled from the spec and the header contract (dtls.h lines
250-260): dtls_connect establishes a channel with the given peer; it
returns 0 when the channel already exists, a positive value when a new
client hello was sent, and a negative value on error (a transmit
failure leaves no half-open channel behind). -/
def dtls_connect (ctx : dtls_context_t) (dst : session_t)
    (transmit_result : Int) : dtls_context_t × Int :=
  match peer_lookup ctx dst with
  | some _ => (ctx, 0)
  | none =>
      if transmit_result < 0 then (ctx, -1)
      else ({ ctx with peers := client_peer dst :: ctx.peers }, 1)

/-- Modelled from the spec and the header contract (dtls.h lines
268-280): dtls_write protects application data for a connected peer and
returns the number of bytes written, or -1 on error (no channel, channel
not yet connected, or transmit failure). -/
def dtls_write (ctx : dtls_context_t) (sess : session_t)
    (buf : List Nat) (transmit_result : Int) : dtls_context_t × Int :=
  match peer_lookup ctx sess with
  | some p =>
      if p.state = DTLS_STATE_CONNECTED then
        if transmit_result < 0 then (ctx, -1)
        else (ctx, (buf.length : Int))
      else (ctx, -1)
  | none => (ctx, -1)

/-- Update the peer of the given identity in the table, if present. -/
def peer_update (ctx : dtls_context_t) (sess : session_t)
    (f : dtls_peer_t → dtls_peer_t) : dtls_context_t :=
  { ctx with
    peers := ctx.peers.map (fun p => if p.session = sess then f p else p) }

/-- Modelled from the spec and the header contract (dtls.h lines
262-266): dtls_close initiates the closing handshake on the channel to
the given peer; zero on success, negative when no such channel
exists. -/
def dtls_close (ctx : dtls_context_t) (remote : session_t) :
    dtls_context_t × Int :=
  match peer_lookup ctx remote with
  | some _ =>
      (peer_update ctx remote
        (fun p => { p with state := DTLS_STATE_CLOSING }), 0)
  | none => (ctx, -1)

/-! Concrete fixtures shared by several witnesses. -/

/-- A context with an all-zero cookie secret of the header-mandated
length and otherwise empty state. -/
def ctx_fixture : dtls_context_t :=
  ⟨List.replicate 12 0, 0, [], [], 0, 0, [], []⟩

/-- A session identity fixture. -/
def sess_fixture : session_t :=
  ⟨[10, 0, 0, 1], 0⟩

/-- A peer fixture in the connected state. -/
def peer_conn_fixture : dtls_peer_t :=
  ⟨sess_fixture, DTLS_STATE_CONNECTED, 1, 5, ⟨0, []⟩,
   (empty_security_params, empty_security_params), 0⟩

/-- The length of the keyed-hash stand-in output is always 32 bytes, as
the spec fixes for the hash of the crypto kit. -/
theorem hmacModel_length (key msg : List Nat) :
    (hmacModel key msg).length = 32 := by
  simp [hmacModel]

/-- Claim C9: for every context and application-data value, reading the app
data immediately after setting it returns exactly the value that was
set (the macros of dtls.h lines 242-243). -/
theorem C9_app_data_get_after_set (ctx : dtls_context_t) (d : Nat) :
    dtls_get_app_data (dtls_set_app_data ctx d) = d :=
  rfl

/-- Claim C10: dtls_set_handler stores the handler in the context's h field
and leaves the cookie secret, its age, the peer table, the send queue,
the application data and both scratch buffers unchanged (dtls.h lines
246-248 against the fields of dtls_context_t, lines 206-226). -/
theorem C10_set_handler_frame (ctx : dtls_context_t) (h : Nat) :
    (dtls_set_handler ctx h).h = h ∧
    (dtls_set_handler ctx h).cookie_secret = ctx.cookie_secret ∧
    (dtls_set_handler ctx h).cookie_secret_age = ctx.cookie_secret_age ∧
    (dtls_set_handler ctx h).peers = ctx.peers ∧
    (dtls_set_handler ctx h).sendqueue = ctx.sendqueue ∧
    (dtls_set_handler ctx h).app = ctx.app ∧
    (dtls_set_handler ctx h).readbuf = ctx.readbuf ∧
    (dtls_set_handler ctx h).sendbuf = ctx.sendbuf :=
  ⟨rfl, rfl, rfl, rfl, rfl, rfl, rfl, rfl⟩

/-- Claim C6: for a context whose cookie secret has the header-mandated
length, the cookie issued for a session identity and client random is
the keyed hash of the identity followed by the client random, under the
12-byte process-wide cookie secret, truncated to exactly 16 bytes
(DTLS_COOKIE_LENGTH, dtls.h line 282; DTLS_COOKIE_SECRET_LENGTH, line
122). -/
theorem C6_cookie_hmac_truncated (ctx : dtls_context_t) (s : session_t)
    (r : List Nat) (hwf : ctx.wf) :
    dtls_create_cookie ctx s r =
      (hmacModel ctx.cookie_secret (encodeSession s ++ r)).take 16 ∧
    (dtls_create_cookie ctx s r).length = 16 ∧
    ctx.cookie_secret.length = 12 := by
  refine ⟨rfl, ?_, hwf⟩
  simp [dtls_create_cookie, DTLS_COOKIE_LENGTH, hmacModel_length]

/-- The C6 theorem applied at a concrete context, identity and client
random, the well-formedness hypothesis discharged by evaluation. -/
theorem C6_cookie_hmac_truncated_witness :
    ctx_fixture.wf ∧
    (dtls_create_cookie ctx_fixture sess_fixture [1, 2, 3] =
      (hmacModel ctx_fixture.cookie_secret
        (encodeSession sess_fixture ++ [1, 2, 3])).take 16 ∧
    (dtls_create_cookie ctx_fixture sess_fixture [1, 2, 3]).length = 16 ∧
    ctx_fixture.cookie_secret.length = 12) :=
  ⟨by decide, C6_cookie_hmac_truncated ctx_fixture sess_fixture [1, 2, 3]
    (by decide)⟩

/-- Claim C7: the encoded record header is exactly 13 bytes, laid out as
content type (1 byte), version (2), epoch (2), sequence number (6) and
fragment length (2) in that order; a content type is valid exactly when
it is one of the four DTLS_CT constants (20-23), and a record with any
other content type is dropped with the peer state untouched. -/
theorem C7_record_header_layout (h : dtls_record_header_t)
    (p : dtls_peer_t) :
    (encodeRecordHeader h).length = 13 ∧
    (encodeRecordHeader h).take 1 = [h.content_type % 2 ^ 8] ∧
    ((encodeRecordHeader h).drop 1).take 2 = encode16 h.version ∧
    ((encodeRecordHeader h).drop 3).take 2 = encode16 h.epoch ∧
    ((encodeRecordHeader h).drop 5).take 6 = encode48 h.sequence_number ∧
    ((encodeRecordHeader h).drop 11).take 2 = encode16 h.length ∧
    (valid_content_type h.content_type = true ↔
      (h.content_type = DTLS_CT_CHANGE_CIPHER_SPEC ∨
       h.content_type = DTLS_CT_ALERT ∨
       h.content_type = DTLS_CT_HANDSHAKE ∨
       h.content_type = DTLS_CT_APPLICATION_DATA)) ∧
    (valid_content_type h.content_type = false →
      record_dispatch p h = (p, RecordResult.dropped)) := by
  refine ⟨rfl, rfl, rfl, rfl, rfl, rfl, ?_, ?_⟩
  · simp [valid_content_type]
    tauto
  · intro hbad
    simp [record_dispatch, hbad]

/-- The C7 theorem applied at a concrete header with content type 24,
which is not a known content type, so the record is dropped and the
peer untouched. -/
theorem C7_record_header_layout_witness :
    valid_content_type 24 = false ∧
    record_dispatch peer_conn_fixture ⟨24, 0xfeff, 1, 5, 0⟩ =
      (peer_conn_fixture, RecordResult.dropped) :=
  ⟨by decide,
   (C7_record_header_layout ⟨24, 0xfeff, 1, 5, 0⟩ peer_conn_fixture).2.2.2.2.2.2.2
     (by decide)⟩

/-- Claim C1: a datagram from an unknown peer that carries a client hello
whose cookie is empty or differs from the cookie computed for this
identity makes dtls_handle_message reply with a hello-verify-request
carrying the freshly computed cookie, and leaves the context - in
particular the peer table - completely unchanged: no peer state is
created and none is mutated. -/
theorem C1_bad_cookie_elicits_verify (ctx : dtls_context_t)
    (sess : session_t) (msg : List Nat) (t : Int) (c : List Nat)
    (hunk : peer_lookup ctx sess = none)
    (hlen : 13 ≤ msg.length)
    (hct : msg.head? = some DTLS_CT_HANDSHAKE)
    (hbl : 12 ≤ (msg.drop 13).length)
    (hht : (msg.drop 13).head? = some DTLS_HT_CLIENT_HELLO)
    (hc : dtls_get_cookie ((msg.drop 13).drop 12) = some c)
    (hbad : c = [] ∨ c ≠ dtls_create_cookie ctx sess
      (client_hello_random ((msg.drop 13).drop 12))) :
    (dtls_handle_message ctx sess msg t).1 = ctx ∧
    (dtls_handle_message ctx sess msg t).2.2 =
      [SentMsg.helloVerifyRequest (dtls_create_cookie ctx sess
        (client_hello_random ((msg.drop 13).drop 12)))] := by
  have h1 : ¬ msg.length < 13 := by omega
  have h2 : ¬ msg.length - 13 < 12 := by
    have h3 := hbl
    rw [List.length_drop] at h3
    omega
  unfold dtls_handle_message
  rw [hunk]
  simp only [h1, if_false, hct, hht, dtls_verify_peer, hc, if_pos hbad]
  simp [h2]

/-- The C1 theorem applied to a concrete cookie-less client hello
datagram arriving at an empty peer table. -/
theorem C1_bad_cookie_elicits_verify_witness :
    (dtls_handle_message ctx_fixture sess_fixture
      (([22] ++ List.replicate 12 0) ++ ([1] ++ List.replicate 11 0) ++
        (List.replicate 34 7 ++ [0, 0])) 0).1 = ctx_fixture ∧
    (dtls_handle_message ctx_fixture sess_fixture
      (([22] ++ List.replicate 12 0) ++ ([1] ++ List.replicate 11 0) ++
        (List.replicate 34 7 ++ [0, 0])) 0).2.2 =
      [SentMsg.helloVerifyRequest (dtls_create_cookie ctx_fixture
        sess_fixture (client_hello_random
          (((([22] ++ List.replicate 12 0) ++ ([1] ++ List.replicate 11 0) ++
            (List.replicate 34 7 ++ [0, 0])).drop 13).drop 12)))] :=
  C1_bad_cookie_elicits_verify ctx_fixture sess_fixture
    (([22] ++ List.replicate 12 0) ++ ([1] ++ List.replicate 11 0) ++
      (List.replicate 34 7 ++ [0, 0])) 0 []
    (by decide) (by decide) (by decide) (by decide) (by decide) (by decide)
    (Or.inl rfl)

/-- Sign discipline of dtls_connect: the return value is non-negative
exactly when the channel to the destination exists afterwards. -/
theorem dtls_connect_sign (ctx : dtls_context_t) (dst : session_t)
    (t : Int) :
    0 ≤ (dtls_connect ctx dst t).2 ↔
      (peer_lookup (dtls_connect ctx dst t).1 dst).isSome = true := by
  unfold dtls_connect
  cases h : peer_lookup ctx dst with
  | some p => simp [h]
  | none =>
      by_cases ht : t < 0
      · simp [ht, h]
        try omega
      · simp [ht, peer_lookup, client_peer]

/-- Sign discipline of dtls_write: the return value is non-negative
exactly when the peer exists in the connected state and the transmit
callback did not fail. -/
theorem dtls_write_sign (ctx : dtls_context_t) (sess : session_t)
    (buf : List Nat) (t : Int) :
    0 ≤ (dtls_write ctx sess buf t).2 ↔
      ((∃ p, peer_lookup ctx sess = some p ∧
        p.state = DTLS_STATE_CONNECTED) ∧ 0 ≤ t) := by
  unfold dtls_write
  cases h : peer_lookup ctx sess with
  | some p =>
      by_cases hs : p.state = DTLS_STATE_CONNECTED
      · by_cases ht : t < 0
        · simp [hs, ht]
          try omega
        · simp [hs, ht]
          try omega
      · simp [hs]
        try omega
  | none =>
      simp
      try omega

/-- Sign discipline of dtls_close: the return value is non-negative
exactly when a channel to the remote peer exists. -/
theorem dtls_close_sign (ctx : dtls_context_t) (remote : session_t) :
    0 ≤ (dtls_close ctx remote).2 ↔
      (peer_lookup ctx remote).isSome = true := by
  unfold dtls_close
  cases h : peer_lookup ctx remote with
  | some p => simp
  | none =>
      simp
      try omega

/-- Sign discipline of dtls_handle_message: the return value is
non-negative exactly when no message had to be handed to a failing
transmit callback. -/
theorem dtls_handle_message_sign (ctx : dtls_context_t)
    (sess : session_t) (msg : List Nat) (t : Int) :
    0 ≤ (dtls_handle_message ctx sess msg t).2.1 ↔
      ((dtls_handle_message ctx sess msg t).2.2 = [] ∨ 0 ≤ t) := by
  unfold dtls_handle_message
  cases h : peer_lookup ctx sess with
  | some p => simp
  | none =>
      by_cases h1 : msg.length < 13
      · rw [if_pos h1]
        simp
      · rw [if_neg h1]
        by_cases h2 : msg.head? ≠ some DTLS_CT_HANDSHAKE
        · rw [if_pos h2]
          simp
        · rw [if_neg h2]
          by_cases h3 : (msg.drop 13).length < 12
          · rw [if_pos h3]
            simp
          · rw [if_neg h3]
            by_cases h4 : (msg.drop 13).head? ≠ some DTLS_HT_CLIENT_HELLO
            · rw [if_pos h4]
              simp
            · rw [if_neg h4]
              simp only [List.drop_drop]
              cases hv : dtls_verify_peer ctx sess (msg.drop 25) with
              | drop => simp
              | sendHelloVerify cookie =>
                  by_cases ht : t < 0
                  · simp only [if_pos ht]
                    simp
                    omega
                  · simp only [if_neg ht]
                    simp
                    omega
              | cookieValid =>
                  by_cases ht : t < 0
                  · simp only [if_pos ht]
                    simp
                    omega
                  · simp only [if_neg ht]
                    simp
                    omega

/-- Claim C5: each of the four core operations returns a non-negative value
exactly when it succeeds and a negative value exactly when it fails:
connect succeeds exactly when the channel exists after the call, write
exactly when the peer is connected and transmission went through, close
exactly when the channel existed, and handle_message exactly when no
reply had to be handed to a failing transmit callback. -/
theorem C5_return_sign_discipline (ctx : dtls_context_t)
    (dst sess : session_t) (buf msg : List Nat) (t : Int) :
    (0 ≤ (dtls_connect ctx dst t).2 ↔
      (peer_lookup (dtls_connect ctx dst t).1 dst).isSome = true) ∧
    (0 ≤ (dtls_write ctx sess buf t).2 ↔
      ((∃ p, peer_lookup ctx sess = some p ∧
        p.state = DTLS_STATE_CONNECTED) ∧ 0 ≤ t)) ∧
    (0 ≤ (dtls_close ctx sess).2 ↔
      (peer_lookup ctx sess).isSome = true) ∧
    (0 ≤ (dtls_handle_message ctx sess msg t).2.1 ↔
      ((dtls_handle_message ctx sess msg t).2.2 = [] ∨ 0 ≤ t)) :=
  ⟨dtls_connect_sign ctx dst t, dtls_write_sign ctx sess buf t,
   dtls_close_sign ctx sess, dtls_handle_message_sign ctx sess msg t⟩

/-- The Finished bookkeeping invariant of the handshake engine: a peer
waiting for the server Finished has already sent its own, and a
connected peer has both sent its Finished and verified the received
one. -/
def HsInv (p : HsPeer) : Prop :=
  (p.state = DTLS_STATE_WAIT_SERVERFINISHED → p.finished_sent = true) ∧
  (p.state = DTLS_STATE_CONNECTED →
    p.finished_sent = true ∧ p.finished_verified = true)

instance (p : HsPeer) : Decidable (HsInv p) := by
  unfold HsInv; infer_instance

/-- Every transition of the handshake engine preserves the Finished
bookkeeping invariant. -/
theorem hs_step_inv (p : HsPeer) (e : HsEvent) (hp : HsInv p) :
    HsInv (hs_step p e).1 := by
  obtain ⟨h1, h2⟩ := hp
  cases e <;>
    simp only [hs_step] <;>
    (try split_ifs) <;>
    simp_all [HsInv]

/-- Runs of the handshake engine preserve the Finished bookkeeping
invariant. -/
theorem hs_run_inv (evs : List HsEvent) : ∀ p : HsPeer, HsInv p →
    HsInv (hs_run p evs).1 := by
  induction evs with
  | nil => intro p hp; exact hp
  | cons e rest ih =>
      intro p hp
      exact ih (hs_step p e).1 (hs_step_inv p e hp)

/-- Claim C4: starting from either role's initial peer view, no run of the
handshake engine reaches the connected state without this side having
sent its Finished message and having verified the Finished message
received from the peer. -/
theorem C4_connected_requires_finished (p0 : HsPeer)
    (evs : List HsEvent)
    (hstart : p0 = client_start ∨ p0 = server_start)
    (hconn : (hs_run p0 evs).1.state = DTLS_STATE_CONNECTED) :
    (hs_run p0 evs).1.finished_sent = true ∧
    (hs_run p0 evs).1.finished_verified = true := by
  have hinv : HsInv p0 := by
    rcases hstart with h | h <;> subst h <;> decide
  exact (hs_run_inv evs p0 hinv).2 hconn

/-- The C4 theorem applied to a concrete client run that completes the
handshake: server hello, server hello done, then a Finished message
that verifies. -/
theorem C4_connected_requires_finished_witness :
    (client_start = client_start ∨ client_start = server_start) ∧
    (hs_run client_start [HsEvent.recvServerHello,
      HsEvent.recvServerHelloDone,
      HsEvent.recvFinished true]).1.state = DTLS_STATE_CONNECTED ∧
    ((hs_run client_start [HsEvent.recvServerHello,
      HsEvent.recvServerHelloDone,
      HsEvent.recvFinished true]).1.finished_sent = true ∧
     (hs_run client_start [HsEvent.recvServerHello,
      HsEvent.recvServerHelloDone,
      HsEvent.recvFinished true]).1.finished_verified = true) :=
  ⟨Or.inl rfl, by decide,
   C4_connected_requires_finished client_start
     [HsEvent.recvServerHello, HsEvent.recvServerHelloDone,
      HsEvent.recvFinished true] (Or.inl rfl) (by decide)⟩

/-- Every event-callback invocation a single engine transition makes is
either an internal event (level 0, code at least 256) or an alert
(positive level, code below 256). -/
theorem hs_step_event_ranges (p : HsPeer) (e : HsEvent) (c : EventCall)
    (hc : c ∈ (hs_step p e).2) :
    (c.level = 0 ∧ 256 ≤ c.code) ∨ (0 < c.level ∧ c.code < 256) := by
  cases e <;>
    simp only [hs_step] at hc <;>
    (try split_ifs at hc) <;>
    simp_all [DTLS_EVENT_CONNECTED, DTLS_ALERT_DECRYPT_ERROR,
      DTLS_ALERT_CLOSE_NOTIFY] <;>
    (try subst hc) <;>
    omega

/-- Claim C8: over any run of the handshake engine, every invocation of the
event callback carries either level 0 with a code of at least 256 (an
internal event) or a positive level with a code below 256 (an alert
protocol message); no invocation mixes the two ranges. -/
theorem C8_event_callback_ranges (evs : List HsEvent) : ∀ (p : HsPeer)
    (c : EventCall), c ∈ (hs_run p evs).2 →
    (c.level = 0 ∧ 256 ≤ c.code) ∨ (0 < c.level ∧ c.code < 256) := by
  induction evs with
  | nil => intro p c hc; simp [hs_run] at hc
  | cons e rest ih =>
      intro p c hc
      simp only [hs_run, List.mem_append] at hc
      rcases hc with hc | hc
      · exact hs_step_event_ranges p e c hc
      · exact ih (hs_step p e).1 c hc

/-- The C8 theorem applied to a concrete run in which a warning alert
with code 5 arrives, so the callback is invoked with level 1 and
code 5. -/
theorem C8_event_callback_ranges_witness :
    (⟨1, 5⟩ : EventCall) ∈
      (hs_run client_start [HsEvent.recvWarningAlert 5]).2 ∧
    ((1 : Nat) = 0 ∧ 256 ≤ 5 ∨ 0 < 1 ∧ 5 < 256) :=
  ⟨by decide,
   C8_event_callback_ranges [HsEvent.recvWarningAlert 5] client_start
     ⟨1, 5⟩ (by decide)⟩

/-- Reflexive companion of the lexicographic order on (epoch, sequence)
pairs. -/
def pairLexLe (a b : Nat × Nat) : Prop :=
  a.1 < b.1 ∨ (a.1 = b.1 ∧ a.2 ≤ b.2)

/-- Lexicographic strictly-below composed with lexicographic at-most is
strictly-below. -/
theorem pairLexLt_of_lt_of_le {a b c : Nat × Nat} (hab : pairLexLt a b)
    (hbc : pairLexLe b c) : pairLexLt a c := by
  rcases hab with h | ⟨h1, h2⟩ <;> rcases hbc with h3 | ⟨h4, h5⟩ <;>
    unfold pairLexLt <;> omega

/-- Lexicographic at-most is transitive. -/
theorem pairLexLe_trans {a b c : Nat × Nat} (hab : pairLexLe a b)
    (hbc : pairLexLe b c) : pairLexLe a c := by
  rcases hab with h | ⟨h1, h2⟩ <;> rcases hbc with h3 | ⟨h4, h5⟩ <;>
    unfold pairLexLe <;> omega

/-- A closed peer emits no further records. -/
theorem out_run_closed (es : List OutEvent) : ∀ p : dtls_peer_t,
    p.state = DTLS_STATE_CLOSED → out_run p es = (p, []) := by
  induction es with
  | nil => intro p hp; rfl
  | cons e rest ih =>
      intro p hp
      have hstep : out_step p e = (p, none) := by
        unfold out_step
        rw [if_pos hp]
      simp only [out_run, hstep]
      rw [ih p hp]
      rfl

/-- Every record a peer will emit is at or above the peer's current
(epoch, sequence) position, lexicographically. -/
theorem out_run_lb (es : List OutEvent) : ∀ (p : dtls_peer_t)
    (q : Nat × Nat), q ∈ (out_run p es).2 →
    pairLexLe (p.epoch, p.rseq) q := by
  induction es with
  | nil => intro p q hq; simp [out_run] at hq
  | cons e rest ih =>
      intro p q hq
      simp only [out_run, List.mem_append] at hq
      by_cases hcl : p.state = DTLS_STATE_CLOSED
      · have hstep : out_step p e = (p, none) := by
          unfold out_step
          rw [if_pos hcl]
        rw [hstep] at hq
        simp only [Option.toList_none, List.not_mem_nil, false_or] at hq
        exact ih p q hq
      · cases e with
        | send =>
            rw [show out_step p OutEvent.send =
              (if p.rseq + 1 = 2 ^ 48 then
                ({ p with state := DTLS_STATE_CLOSED, rseq := p.rseq + 1 },
                 some (p.epoch, p.rseq))
               else ({ p with rseq := p.rseq + 1 },
                 some (p.epoch, p.rseq))) from by
              unfold out_step; rw [if_neg hcl]] at hq
            by_cases hov : p.rseq + 1 = 2 ^ 48
            · rw [if_pos hov] at hq
              simp only [Option.toList_some, List.mem_singleton] at hq
              rcases hq with hq | hq
              · subst hq; exact Or.inr ⟨rfl, le_refl _⟩
              · rw [out_run_closed rest _ rfl] at hq
                simp at hq
            · rw [if_neg hov] at hq
              simp only [Option.toList_some, List.mem_singleton] at hq
              rcases hq with hq | hq
              · subst hq; exact Or.inr ⟨rfl, le_refl _⟩
              · have h2 := ih _ q hq
                have hmid : pairLexLe (p.epoch, p.rseq)
                    (p.epoch, p.rseq + 1) := by
                  unfold pairLexLe; omega
                exact pairLexLe_trans hmid h2
        | cipher =>
            rw [show out_step p OutEvent.cipher =
              (if p.epoch + 1 = 2 ^ 16 then
                ({ p with state := DTLS_STATE_CLOSED }, none)
               else ({ p with epoch := p.epoch + 1, rseq := 0 },
                 none)) from by
              unfold out_step; rw [if_neg hcl]] at hq
            by_cases hov : p.epoch + 1 = 2 ^ 16
            · rw [if_pos hov] at hq
              simp only [Option.toList_none, List.not_mem_nil,
                false_or] at hq
              rw [out_run_closed rest _ rfl] at hq
              simp at hq
            · rw [if_neg hov] at hq
              simp only [Option.toList_none, List.not_mem_nil,
                false_or] at hq
              have h2 := ih _ q hq
              have hmid : pairLexLe (p.epoch, p.rseq)
                  (p.epoch + 1, 0) := by
                unfold pairLexLe; omega
              exact pairLexLe_trans hmid h2

/-- The records a peer emits are strictly increasing in the
lexicographic order on (epoch, sequence). -/
theorem out_run_chain (es : List OutEvent) : ∀ p : dtls_peer_t,
    List.Chain' pairLexLt (out_run p es).2 := by
  induction es with
  | nil => intro p; simp [out_run]
  | cons e rest ih =>
      intro p
      simp only [out_run]
      by_cases hcl : p.state = DTLS_STATE_CLOSED
      · have hstep : out_step p e = (p, none) := by
          unfold out_step
          rw [if_pos hcl]
        rw [hstep]
        simpa using ih p
      · cases e with
        | send =>
            rw [show out_step p OutEvent.send =
              (if p.rseq + 1 = 2 ^ 48 then
                ({ p with state := DTLS_STATE_CLOSED, rseq := p.rseq + 1 },
                 some (p.epoch, p.rseq))
               else ({ p with rseq := p.rseq + 1 },
                 some (p.epoch, p.rseq))) from by
              unfold out_step; rw [if_neg hcl]]
            by_cases hov : p.rseq + 1 = 2 ^ 48
            · rw [if_pos hov]
              rw [out_run_closed rest _ rfl]
              simp [List.Chain']
            · rw [if_neg hov]
              simp only [Option.toList_some, List.singleton_append]
              rw [List.chain'_cons']
              refine ⟨?_, ih _⟩
              intro q hq
              have hq2 : q ∈ (out_run { p with rseq := p.rseq + 1 } rest).2 :=
                List.mem_of_mem_head? hq
              have h2 := out_run_lb rest _ q hq2
              have hmid : pairLexLt (p.epoch, p.rseq)
                  (p.epoch, p.rseq + 1) := by
                unfold pairLexLt; omega
              exact pairLexLt_of_lt_of_le hmid h2
        | cipher =>
            rw [show out_step p OutEvent.cipher =
              (if p.epoch + 1 = 2 ^ 16 then
                ({ p with state := DTLS_STATE_CLOSED }, none)
               else ({ p with epoch := p.epoch + 1, rseq := 0 },
                 none)) from by
              unfold out_step; rw [if_neg hcl]]
            by_cases hov : p.epoch + 1 = 2 ^ 16
            · rw [if_pos hov]
              simpa using ih _
            · rw [if_neg hov]
              simpa using ih _

/-- Claim C3: the (epoch, sequence) pairs a peer stamps on consecutive
outbound records are strictly increasing in lexicographic order; a send
within a fixed epoch advances the sequence number by one while keeping
the epoch, and immediately after an epoch increment the sequence number
is zero. -/
theorem C3_outbound_monotonic (p : dtls_peer_t) (es : List OutEvent) :
    List.Chain' pairLexLt (out_run p es).2 ∧
    (p.state ≠ DTLS_STATE_CLOSED → p.rseq + 1 ≠ 2 ^ 48 →
      (out_step p OutEvent.send).1.rseq = p.rseq + 1 ∧
      (out_step p OutEvent.send).1.epoch = p.epoch) ∧
    (p.state ≠ DTLS_STATE_CLOSED → p.epoch + 1 ≠ 2 ^ 16 →
      (out_step p OutEvent.cipher).1.rseq = 0 ∧
      (out_step p OutEvent.cipher).1.epoch = p.epoch + 1) := by
  refine ⟨out_run_chain es p, ?_, ?_⟩
  · intro hcl hov
    unfold out_step
    rw [if_neg hcl, if_neg hov]
    exact ⟨rfl, rfl⟩
  · intro hcl hov
    unfold out_step
    rw [if_neg hcl, if_neg hov]
    exact ⟨rfl, rfl⟩

/-- The C3 theorem applied to a connected peer at epoch 1, sequence 5,
with the two side conditions discharged by evaluation. -/
theorem C3_outbound_monotonic_witness :
    peer_conn_fixture.state ≠ DTLS_STATE_CLOSED ∧
    peer_conn_fixture.rseq + 1 ≠ 2 ^ 48 ∧
    peer_conn_fixture.epoch + 1 ≠ 2 ^ 16 ∧
    List.Chain' pairLexLt (out_run peer_conn_fixture
      [OutEvent.send, OutEvent.send, OutEvent.cipher, OutEvent.send]).2 ∧
    ((out_step peer_conn_fixture OutEvent.send).1.rseq =
      peer_conn_fixture.rseq + 1 ∧
     (out_step peer_conn_fixture OutEvent.send).1.epoch =
      peer_conn_fixture.epoch) ∧
    ((out_step peer_conn_fixture OutEvent.cipher).1.rseq = 0 ∧
     (out_step peer_conn_fixture OutEvent.cipher).1.epoch =
      peer_conn_fixture.epoch + 1) :=
  ⟨by decide, by decide, by decide,
   (C3_outbound_monotonic peer_conn_fixture
     [OutEvent.send, OutEvent.send, OutEvent.cipher, OutEvent.send]).1,
   (C3_outbound_monotonic peer_conn_fixture
     [OutEvent.send, OutEvent.send, OutEvent.cipher, OutEvent.send]).2.1
     (by decide) (by decide),
   (C3_outbound_monotonic peer_conn_fixture
     [OutEvent.send, OutEvent.send, OutEvent.cipher, OutEvent.send]).2.2
     (by decide) (by decide)⟩

/-- Accepting a sequence number marks it: immediately after
replay_update, the same sequence number no longer passes the replay
check. -/
theorem replay_update_marks (w : ReplayWindow) (s : Nat)
    (h : replay_check w s = true) :
    replay_check (replay_update w s) s = false := by
  unfold replay_update
  by_cases h1 : w.high < s
  · rw [if_pos h1]
    unfold replay_check
    dsimp only
    rw [if_neg (lt_irrefl s), Nat.sub_self]
    rw [if_neg (by omega : ¬ 63 < 0)]
    rw [Nat.testBit_mod_two_pow, Nat.testBit_lor]
    have h2 : Nat.testBit 1 0 = true := rfl
    simp [h2]
  · rw [if_neg h1]
    unfold replay_check at h ⊢
    rw [if_neg h1] at h ⊢
    by_cases h2 : 63 < w.high - s
    · rw [if_pos h2] at h
      exact absurd h (by simp)
    · dsimp only
      rw [if_neg h2]
      rw [Nat.testBit_lor]
      have h3 : Nat.testBit (1 <<< (w.high - s)) (w.high - s) = true := by
        rw [Nat.shiftLeft_eq, one_mul]
        exact Nat.testBit_two_pow_self
      simp [h3]

/-- Rejection is stable: a sequence number the replay check rejects is
still rejected after the window takes one further inbound record. -/
theorem replay_step_stable (w : ReplayWindow) (s t : Nat)
    (h : replay_check w s = false) :
    replay_check (replay_step w t) s = false := by
  unfold replay_step
  by_cases hacc : replay_check w t = true
  swap
  · rw [if_neg hacc]
    exact h
  rw [if_pos hacc]
  have h1 : ¬ w.high < s := by
    intro hlt
    unfold replay_check at h
    rw [if_pos hlt] at h
    exact absurd h (by simp)
  unfold replay_update
  by_cases h2 : 63 < w.high - s
  · by_cases h3 : w.high < t
    · rw [if_pos h3]
      unfold replay_check
      dsimp only
      rw [if_neg (by omega : ¬ t < s)]
      rw [if_pos (by omega : 63 < t - s)]
    · rw [if_neg h3]
      unfold replay_check
      dsimp only
      rw [if_neg h1, if_pos h2]
  · have h3 : w.bitmap.testBit (w.high - s) = true := by
      unfold replay_check at h
      rw [if_neg h1, if_neg h2] at h
      simpa using h
    by_cases h4 : w.high < t
    · rw [if_pos h4]
      unfold replay_check
      dsimp only
      rw [if_neg (by omega : ¬ t < s)]
      by_cases h5 : 63 < t - s
      · rw [if_pos h5]
      · rw [if_neg h5]
        rw [Nat.testBit_mod_two_pow, Nat.testBit_lor,
          Nat.testBit_shiftLeft]
        have h64 : t - s < 64 := by omega
        have hk : t - w.high ≤ t - s := by omega
        have hsub : t - s - (t - w.high) = w.high - s := by omega
        simp [h64, hk, hsub, h3]
    · rw [if_neg h4]
      unfold replay_check
      dsimp only
      rw [if_neg h1, if_neg h2]
      rw [Nat.testBit_lor]
      simp [h3]

/-- Rejection is stable over any further run of inbound records. -/
theorem replay_run_stable (seqs : List Nat) : ∀ (w : ReplayWindow)
    (s : Nat), replay_check w s = false →
    replay_check (replay_run w seqs) s = false := by
  induction seqs with
  | nil => intro w s h; exact h
  | cons t rest ih =>
      intro w s h
      unfold replay_run
      rw [List.foldl_cons]
      exact ih (replay_step w t) s (replay_step_stable w s t h)

/-- Claim C2: for a peer in the connected state with replay-window high-water
mark H, a record with sequence number exactly H - 63 is accepted when
its window bit is still clear; any sequence number at H - 64 or lower
is rejected; and a sequence number that was accepted once is rejected
by every later window state, however the window evolves. -/
theorem C2_replay_window_bounds (p : dtls_peer_t) (w : ReplayWindow)
    (hconn : p.state = DTLS_STATE_CONNECTED) :
    (63 ≤ w.high → w.bitmap.testBit 63 = false →
      dtls_record_recv_check p w (w.high - 63) = true) ∧
    (∀ s, s + 64 ≤ w.high → dtls_record_recv_check p w s = false) ∧
    (∀ s seqs, replay_check w s = true →
      dtls_record_recv_check p (replay_run (replay_update w s) seqs) s =
        false) := by
  refine ⟨?_, ?_, ?_⟩
  · intro hh hbit
    unfold dtls_record_recv_check replay_check
    rw [if_neg (by omega : ¬ w.high < w.high - 63)]
    rw [(by omega : w.high - (w.high - 63) = 63)]
    rw [if_neg (by omega : ¬ 63 < 63)]
    simp [hconn, hbit]
  · intro s hs
    unfold dtls_record_recv_check replay_check
    rw [if_neg (by omega : ¬ w.high < s)]
    rw [if_pos (by omega : 63 < w.high - s)]
    simp
  · intro s seqs hacc
    have h1 := replay_update_marks w s hacc
    have h2 := replay_run_stable seqs (replay_update w s) s h1
    unfold dtls_record_recv_check
    simp [h2]

/-- The C2 theorem applied to a connected peer with a window at
high-water mark 100 whose bitmap has only bit 0 set: sequence 37 is
accepted, sequence 36 is rejected, and sequence 101, once accepted, is
rejected again after a later record at 150 shifted the window. -/
theorem C2_replay_window_bounds_witness :
    peer_conn_fixture.state = DTLS_STATE_CONNECTED ∧
    dtls_record_recv_check peer_conn_fixture ⟨100, 1⟩ 37 = true ∧
    dtls_record_recv_check peer_conn_fixture ⟨100, 1⟩ 36 = false ∧
    dtls_record_recv_check peer_conn_fixture
      (replay_run (replay_update ⟨100, 1⟩ 101) [150]) 101 = false :=
  ⟨rfl,
   (C2_replay_window_bounds peer_conn_fixture ⟨100, 1⟩ rfl).1
     (by decide) (by decide),
   (C2_replay_window_bounds peer_conn_fixture ⟨100, 1⟩ rfl).2.1 36
     (by decide),
   (C2_replay_window_bounds peer_conn_fixture ⟨100, 1⟩ rfl).2.2 101 [150]
     (by decide)⟩

end TinyDtls
